import Mathlib

/-!
Shallow embedding of `src/wifi_api.c` (ESP32 Wi-Fi station supervisor).

The C file keeps its whole state in process-wide statics:
`s_retry_num` (int, initialised 0), `s_ip_semaphore` (binary semaphore
handle, NULL until created, never reset to NULL after deletion),
`instance_any_id` / `instance_got_ip` (event-subscription handles, never
cleared), and the constant `MAX_RETRY = 10`.

The embedding models those statics as an explicit record `ApiState`
threaded through the operations, plus ghost fields that record observable
effects (number of semaphore raises, number of connect commands, a
double-free flag for `vSemaphoreDelete` on a dead handle) and the
spec-level phase (`Idle`, `Connecting`, `Connected`, `Failed`) assigned
according to which branch of the C code fired.  Collaborator (ESP-IDF)
return codes that the C code reads are passed in through a `Collab`
record; collaborator calls whose results the C code discards are recorded
only as effects.
-/

namespace WifiApi

/-- Result codes of type `esp_err_t` as used by the source: `ESP_OK`,
`ESP_FAIL`, and other SDK error codes. -/
inductive EspErr where
  | ok
  | fail
  | code (n : Nat)
deriving DecidableEq

/-- Spec-level supervisor phase.  The C code has no explicit phase
variable; the phase is a ghost field assigned per branch of
`wifi_api_event_handler` exactly as section 4.1 of the design document
names the branches (retry branch: Connecting, exhausted branch: Failed,
got-ip branch: Connected). -/
inductive Phase where
  | idle
  | connecting
  | connected
  | failed
deriving DecidableEq

/-- Notifications delivered to `wifi_api_event_handler` (the cases of its
switch): `WIFI_EVENT_STA_START`, `WIFI_EVENT_STA_DISCONNECTED`,
`IP_EVENT_STA_GOT_IP`, and the default case. -/
inductive WifiEvent where
  | staStart
  | staDisconnected
  | gotIp
  | other
deriving DecidableEq

/-- MAX_RETRY from the source: `static const uint8_t MAX_RETRY = 10;`. -/
def MAX_RETRY : Nat := 10

/-- The process-wide statics of `wifi_api.c` together with ghost
observation fields.  `s_ip_semaphore` models whether the handle variable
is non-NULL; `semAlive` whether the semaphore object has not been
deleted (the C code deletes the object without resetting the handle
variable).  `instance_any_id` and `instance_got_ip` model the two
subscription-handle statics being non-NULL. -/
structure ApiState where
  s_retry_num : Nat
  s_ip_semaphore : Bool
  semAlive : Bool
  instance_any_id : Bool
  instance_got_ip : Bool
  phase : Phase
  semGiven : Nat
  connectCmds : Nat
  unregisterCmds : Nat
  doubleFree : Bool
deriving DecidableEq

/-- Initial values of the statics: `s_retry_num = 0`, all handles NULL. -/
def initState : ApiState :=
  { s_retry_num := 0, s_ip_semaphore := false, semAlive := false,
    instance_any_id := false, instance_got_ip := false, phase := Phase.idle,
    semGiven := 0, connectCmds := 0, unregisterCmds := 0, doubleFree := false }

/-- Embedding of `wifi_api_event_handler` (wifi_api.c lines 117-156).
`WIFI_EVENT_STA_START`: `esp_wifi_connect()`.
`WIFI_EVENT_STA_DISCONNECTED`: if `s_retry_num < MAX_RETRY` then
`esp_wifi_connect(); s_retry_num++` else `xSemaphoreGive(s_ip_semaphore)`.
`IP_EVENT_STA_GOT_IP`: `s_retry_num = 0; xSemaphoreGive(s_ip_semaphore)`.
Default: nothing. -/
def wifi_api_event_handler (s : ApiState) (e : WifiEvent) : ApiState :=
  match e with
  | WifiEvent.staStart =>
      { s with connectCmds := s.connectCmds + 1 }
  | WifiEvent.staDisconnected =>
      if s.s_retry_num < MAX_RETRY then
        { s with connectCmds := s.connectCmds + 1,
                 s_retry_num := s.s_retry_num + 1,
                 phase := Phase.connecting }
      else
        { s with semGiven := s.semGiven + 1, phase := Phase.failed }
  | WifiEvent.gotIp =>
      { s with s_retry_num := 0, semGiven := s.semGiven + 1,
               phase := Phase.connected }
  | WifiEvent.other => s

/-- Folds a sequence of notifications through the event handler, in the
order the event loop delivers them. -/
def runEvents (s : ApiState) (events : List WifiEvent) : ApiState :=
  events.foldl wifi_api_event_handler s

/-- Station configuration applied to the collaborator: the `sta.ssid`
(32-byte buffer) and `sta.password` (64-byte buffer) fields of
`wifi_config_t`, as byte lists. -/
structure StaConfig where
  ssid : List Nat
  password : List Nat
deriving DecidableEq

/-- Observable collaborator commands issued by the API functions, in
program order. -/
inductive Effect where
  | nvsInit
  | semCreate
  | netifInit
  | eventLoopCreate
  | wifiInit
  | netifCreate
  | setHandlers
  | setStorage
  | setMode
  | wifiStart
  | registerAnyId
  | registerGotIp
  | setConfig
  | connectCmd
  | semTake
  | getConfig
  | disconnectCmd
  | unregisterAnyId
  | unregisterGotIp
  | semDelete
  | registerShutdown
deriving DecidableEq

/-- Return codes of the collaborator (ESP-IDF) calls whose results the C
code actually reads or checks. -/
structure Collab where
  getConfigErr : EspErr
  setConfigErr : EspErr
  disconnectErr : EspErr
  connectErr : EspErr
  unregisterAnyErr : EspErr
  unregisterGotIpErr : EspErr
deriving DecidableEq

/-- State, applied configuration and early-return result of the part of
`wifi_api_configure` that runs before the caller blocks on
`xSemaphoreTake` (wifi_api.c lines 193-249).  `earlyRet = some e`
means the function returned `e` before ever blocking. -/
structure ConfigurePre where
  state : ApiState
  config : StaConfig
  earlyRet : Option EspErr
deriving DecidableEq

/-- Embedding of `wifi_api_configure` up to (not including) the blocking
`xSemaphoreTake` call (wifi_api.c lines 193-249): NVS init, semaphore
creation (early `ESP_FAIL` return if it fails), netif/event-loop/wifi
initialisation, credential installation via `strncpy` with the full
buffer sizes (32 and 64), the two handler registrations, `set_config`
and `esp_wifi_connect`.  Note that no statement in this range writes
`s_retry_num`. -/
def wifi_api_configure_pre_block (semCreateOk : Bool) (ssid password : List Nat)
    (s : ApiState) : ConfigurePre :=
  if semCreateOk = false then
    { state := s, config := { ssid := [], password := [] },
      earlyRet := some EspErr.fail }
  else
    { state := { s with s_ip_semaphore := true, semAlive := true,
                        instance_any_id := true, instance_got_ip := true,
                        connectCmds := s.connectCmds + 1,
                        phase := Phase.connecting },
      config := { ssid := ssid.take 32, password := password.take 64 },
      earlyRet := none }

/-- Embedding of the code `wifi_api_configure` runs after the blocking
`xSemaphoreTake` returns (wifi_api.c lines 256-262):
`if (s_retry_num > MAX_RETRY) return ESP_FAIL;` then shutdown-handler
registration and `return ESP_OK`. -/
def wifi_api_configure_post_wake (s : ApiState) : EspErr :=
  if s.s_retry_num > MAX_RETRY then EspErr.fail else EspErr.ok

/-- Final state, applied configuration and return code of a whole call
to `wifi_api_configure`. -/
structure ConfigureOutcome where
  state : ApiState
  config : StaConfig
  ret : EspErr
deriving DecidableEq

/-- Embedding of a complete `wifi_api_configure` call (wifi_api.c lines
191-263): the pre-block part, then - unless it returned early - the
notifications `events` that the Network Stack delivers to
`wifi_api_event_handler` up to the moment the blocked caller wakes,
then the post-wake check. -/
def wifi_api_configure (semCreateOk : Bool) (ssid password : List Nat)
    (events : List WifiEvent) (s : ApiState) : ConfigureOutcome :=
  let pre := wifi_api_configure_pre_block semCreateOk ssid password s
  match pre.earlyRet with
  | some e => { state := pre.state, config := pre.config, ret := e }
  | none =>
      let s2 := runEvents pre.state events
      { state := s2, config := pre.config,
        ret := wifi_api_configure_post_wake s2 }

/-- FreeRTOS `vSemaphoreDelete` on the handle held in `s_ip_semaphore`:
deleting a live semaphore frees it; deleting an already-freed handle is
undefined behaviour, recorded by the `doubleFree` ghost flag. -/
def vSemaphoreDelete (s : ApiState) : ApiState :=
  if s.semAlive then { s with semAlive := false }
  else { s with doubleFree := true }

/-- Final state, return value and effect trace of `wifi_api_disconnect`.
`ret = none` models `ESP_ERROR_CHECK` aborting the process on a failed
unregister call. -/
structure DisconnectResult where
  state : ApiState
  ret : Option EspErr
  effects : List Effect
deriving DecidableEq

/-- Embedding of `wifi_api_disconnect` (wifi_api.c lines 265-277): it
unconditionally issues the two unregister calls (each wrapped in
`ESP_ERROR_CHECK`, which aborts on a non-OK result), then
`if (s_ip_semaphore) vSemaphoreDelete(s_ip_semaphore);` - without ever
resetting `s_ip_semaphore` to NULL - and finally returns the result of
`esp_wifi_disconnect()`. -/
def wifi_api_disconnect (c : Collab) (s : ApiState) : DisconnectResult :=
  let s1 : ApiState := { s with unregisterCmds := s.unregisterCmds + 1 }
  if c.unregisterAnyErr ≠ EspErr.ok then
    { state := s1, ret := none, effects := [Effect.unregisterAnyId] }
  else
    let s2 : ApiState := { s1 with unregisterCmds := s1.unregisterCmds + 1 }
    if c.unregisterGotIpErr ≠ EspErr.ok then
      { state := s2, ret := none,
        effects := [Effect.unregisterAnyId, Effect.unregisterGotIp] }
    else
      if s2.s_ip_semaphore then
        { state := vSemaphoreDelete s2, ret := some c.disconnectErr,
          effects := [Effect.unregisterAnyId, Effect.unregisterGotIp,
                      Effect.semDelete, Effect.disconnectCmd] }
      else
        { state := s2, ret := some c.disconnectErr,
          effects := [Effect.unregisterAnyId, Effect.unregisterGotIp,
                      Effect.disconnectCmd] }

/-- Final state, resulting configuration, return value and effect trace
of `wifi_api_alter_sta`. -/
structure AlterResult where
  state : ApiState
  config : StaConfig
  ret : EspErr
  effects : List Effect
deriving DecidableEq

/-- Embedding of `wifi_api_alter_sta` (wifi_api.c lines 279-294): it
reads the current configuration with `esp_wifi_get_config`, overwrites
the SSID and password via `strncpy` with sizes `sizeof(...) - 1` (31 and
63), reapplies it with `esp_wifi_set_config`, then issues
`esp_wifi_disconnect` and `esp_wifi_connect`.  All four collaborator
results are discarded and the function returns `ESP_OK` unconditionally.
It touches none of the statics, so the supervisor state is returned
unchanged. -/
def wifi_api_alter_sta (c : Collab) (s : ApiState) (cfg : StaConfig)
    (newSsid newPassword : List Nat) : AlterResult :=
  let wc : StaConfig :=
    { cfg with ssid := newSsid.take 31, password := newPassword.take 63 }
  { state := s, config := wc, ret := EspErr.ok,
    effects := [Effect.getConfig, Effect.setConfig,
                Effect.disconnectCmd, Effect.connectCmd] }

/-- SDK auth-mode code `WIFI_AUTH_OPEN` from `wifi_auth_mode_t`. -/
def WIFI_AUTH_OPEN : Nat := 0

/-- SDK auth-mode code `WIFI_AUTH_WEP` from `wifi_auth_mode_t`. -/
def WIFI_AUTH_WEP : Nat := 1

/-- SDK auth-mode code `WIFI_AUTH_WPA_PSK` from `wifi_auth_mode_t`. -/
def WIFI_AUTH_WPA_PSK : Nat := 2

/-- SDK auth-mode code `WIFI_AUTH_WPA2_PSK` from `wifi_auth_mode_t`. -/
def WIFI_AUTH_WPA2_PSK : Nat := 3

/-- SDK auth-mode code `WIFI_AUTH_WPA_WPA2_PSK` from `wifi_auth_mode_t`. -/
def WIFI_AUTH_WPA_WPA2_PSK : Nat := 4

/-- The closed classification of auth modes produced by the conditional
chain in `wifi_api_scan`. -/
inductive AuthModeLabel where
  | authOpen
  | authWep
  | authWpaPsk
  | authWpa2Psk
  | authWpaWpa2Psk
  | authUnknown
deriving DecidableEq

/-- Embedding of the nested conditional in `wifi_api_scan` (wifi_api.c
lines 89-100) that classifies an auth-mode code. -/
def classify_authmode (m : Nat) : AuthModeLabel :=
  if m = WIFI_AUTH_OPEN then AuthModeLabel.authOpen
  else if m = WIFI_AUTH_WEP then AuthModeLabel.authWep
  else if m = WIFI_AUTH_WPA_PSK then AuthModeLabel.authWpaPsk
  else if m = WIFI_AUTH_WPA2_PSK then AuthModeLabel.authWpa2Psk
  else if m = WIFI_AUTH_WPA_WPA2_PSK then AuthModeLabel.authWpaWpa2Psk
  else AuthModeLabel.authUnknown

/-- An access-point record as retrieved by `wifi_api_scan`: SSID bytes,
RSSI, raw auth-mode code, primary channel. -/
structure ApRecord where
  ssid : List Nat
  rssi : Int
  authmode : Nat
  primary : Nat
deriving DecidableEq

/-- Embedding of `wifi_api_scan` (wifi_api.c lines 65-103): `number` is
fixed to 10 and `ap_info` holds 10 records, so
`esp_wifi_scan_get_ap_records(&number, ap_info)` retrieves at most the
first 10 of the access points the collaborator found; each retrieved
record is reported with its classified auth mode. -/
def wifi_api_scan (found : List ApRecord) : List (ApRecord × AuthModeLabel) :=
  (found.take 10).map (fun r => (r, classify_authmode r.authmode))

/-- Collaborator outcome in which every call succeeds. -/
def okCollab : Collab :=
  { getConfigErr := EspErr.ok, setConfigErr := EspErr.ok,
    disconnectErr := EspErr.ok, connectErr := EspErr.ok,
    unregisterAnyErr := EspErr.ok, unregisterGotIpErr := EspErr.ok }

/-- Collaborator outcome in which `esp_wifi_set_config` fails. -/
def failSetConfigCollab : Collab :=
  { okCollab with setConfigErr := EspErr.fail }

/-- Collaborator outcome in which `esp_wifi_disconnect` fails. -/
def discFailCollab : Collab :=
  { okCollab with disconnectErr := EspErr.fail }

/-- Supervisor state right after `wifi_api_configure` created the
semaphore, registered the handlers and issued the first connect. -/
def configuredState : ApiState :=
  (wifi_api_configure_pre_block true [] [] initState).state

/-- Supervisor state with the retry counter at the budget. -/
def stateAtBudget : ApiState :=
  { initState with s_retry_num := 10 }

/-- One handler invocation keeps the retry counter within the budget. -/
theorem handler_retry_le (s : ApiState) (e : WifiEvent)
    (h : s.s_retry_num ≤ MAX_RETRY) :
    (wifi_api_event_handler s e).s_retry_num ≤ MAX_RETRY := by
  cases e <;> simp only [wifi_api_event_handler]
  · exact h
  · split <;> simp <;> omega
  · simp [MAX_RETRY]
  · exact h

/-- Any sequence of handler invocations keeps the retry counter within
the budget. -/
theorem runEvents_retry_le (events : List WifiEvent) (s : ApiState)
    (h : s.s_retry_num ≤ MAX_RETRY) :
    (runEvents s events).s_retry_num ≤ MAX_RETRY := by
  induction events generalizing s with
  | nil => exact h
  | cons e es ih => exact ih (wifi_api_event_handler s e) (handler_retry_le s e h)

/-- Claim C1, failing input: after `wifi_api_configure` installs the
handlers and the stack delivers MAX_RETRY + 1 = 11 consecutive
disconnect notifications, the handler raises the Completion Signal with
the spec-level phase `Failed` and `s_retry_num = MAX_RETRY`; yet the
woken `configure` call evaluates `s_retry_num > MAX_RETRY` to false and
returns `ESP_OK`, indistinguishable from success. -/
theorem C1_exhausted_retries_return_ok :
    (wifi_api_configure true [] []
        (List.replicate 11 WifiEvent.staDisconnected) initState).state.phase
      = Phase.failed ∧
    (wifi_api_configure true [] []
        (List.replicate 11 WifiEvent.staDisconnected) initState).state.s_retry_num
      = MAX_RETRY ∧
    (wifi_api_configure true [] []
        (List.replicate 11 WifiEvent.staDisconnected) initState).state.semGiven
      = 1 ∧
    (wifi_api_configure true [] []
        (List.replicate 11 WifiEvent.staDisconnected) initState).ret
      = EspErr.ok := by
  decide

/-- Claim C2, counterexample: a `wifi_api_configure` call entered with a
leftover retry count of 5 reaches the blocking `xSemaphoreTake`
(no early return) with `s_retry_num` still 5, not 0. -/
theorem C2_counterexample :
    (wifi_api_configure_pre_block true [] []
        { initState with s_retry_num := 5 }).earlyRet = none ∧
    (wifi_api_configure_pre_block true [] []
        { initState with s_retry_num := 5 }).state.s_retry_num ≠ 0 := by
  decide

/-- Claim C2, amended: `wifi_api_configure` never writes `s_retry_num`;
the value the counter holds when the caller blocks on the Completion
Signal is exactly the value it held at entry, for every prior value. -/
theorem C2_configure_preserves_retry_count (semCreateOk : Bool)
    (ssid password : List Nat) (s : ApiState) :
    (wifi_api_configure_pre_block semCreateOk ssid password s).state.s_retry_num
      = s.s_retry_num := by
  unfold wifi_api_configure_pre_block
  split <;> rfl

/-- Claim C3: a disconnect notification arriving with
`s_retry_num = MAX_RETRY` raises the Completion Signal exactly once,
leaves the phase `Failed` and keeps the counter at `MAX_RETRY`; and in
the concrete scenario, 10 disconnect notifications from the initial
state raise no signal, while the 11th leaves phase `Failed`,
`s_retry_num = 10`, and a single signal raise. -/
theorem C3_disconnect_at_budget (s : ApiState)
    (h : s.s_retry_num = MAX_RETRY) :
    ((wifi_api_event_handler s WifiEvent.staDisconnected).semGiven
        = s.semGiven + 1 ∧
     (wifi_api_event_handler s WifiEvent.staDisconnected).phase
        = Phase.failed ∧
     (wifi_api_event_handler s WifiEvent.staDisconnected).s_retry_num
        = s.s_retry_num) ∧
    (runEvents initState (List.replicate 10 WifiEvent.staDisconnected)).semGiven
      = 0 ∧
    (runEvents initState (List.replicate 11 WifiEvent.staDisconnected)).phase
      = Phase.failed ∧
    (runEvents initState (List.replicate 11 WifiEvent.staDisconnected)).s_retry_num
      = 10 ∧
    (runEvents initState (List.replicate 11 WifiEvent.staDisconnected)).semGiven
      = 1 := by
  refine ⟨?_, by decide, by decide, by decide, by decide⟩
  simp [wifi_api_event_handler, h]

/-- Witness for C3 at the concrete state with the counter at the
budget. -/
theorem C3_disconnect_at_budget_witness :
    stateAtBudget.s_retry_num = MAX_RETRY ∧
    (((wifi_api_event_handler stateAtBudget WifiEvent.staDisconnected).semGiven
        = stateAtBudget.semGiven + 1 ∧
      (wifi_api_event_handler stateAtBudget WifiEvent.staDisconnected).phase
        = Phase.failed ∧
      (wifi_api_event_handler stateAtBudget WifiEvent.staDisconnected).s_retry_num
        = stateAtBudget.s_retry_num) ∧
     (runEvents initState (List.replicate 10 WifiEvent.staDisconnected)).semGiven
       = 0 ∧
     (runEvents initState (List.replicate 11 WifiEvent.staDisconnected)).phase
       = Phase.failed ∧
     (runEvents initState (List.replicate 11 WifiEvent.staDisconnected)).s_retry_num
       = 10 ∧
     (runEvents initState (List.replicate 11 WifiEvent.staDisconnected)).semGiven
       = 1) :=
  ⟨by decide, C3_disconnect_at_budget stateAtBudget (by decide)⟩

/-- Claim C4: a disconnect notification arriving with
`s_retry_num = r < MAX_RETRY` reissues a connect command, sets the
counter to `r + 1`, and does not raise the Completion Signal. -/
theorem C4_disconnect_below_budget (s : ApiState)
    (h : s.s_retry_num < MAX_RETRY) :
    (wifi_api_event_handler s WifiEvent.staDisconnected).s_retry_num
      = s.s_retry_num + 1 ∧
    (wifi_api_event_handler s WifiEvent.staDisconnected).connectCmds
      = s.connectCmds + 1 ∧
    (wifi_api_event_handler s WifiEvent.staDisconnected).semGiven
      = s.semGiven ∧
    (wifi_api_event_handler s WifiEvent.staDisconnected).phase
      = Phase.connecting := by
  simp [wifi_api_event_handler, h]

/-- Witness for C4 at the initial state, whose counter 0 is below the
budget. -/
theorem C4_disconnect_below_budget_witness :
    initState.s_retry_num < MAX_RETRY ∧
    ((wifi_api_event_handler initState WifiEvent.staDisconnected).s_retry_num
       = initState.s_retry_num + 1 ∧
     (wifi_api_event_handler initState WifiEvent.staDisconnected).connectCmds
       = initState.connectCmds + 1 ∧
     (wifi_api_event_handler initState WifiEvent.staDisconnected).semGiven
       = initState.semGiven ∧
     (wifi_api_event_handler initState WifiEvent.staDisconnected).phase
       = Phase.connecting) :=
  ⟨by decide, C4_disconnect_below_budget initState (by decide)⟩

/-- Claim C5: a got-IP notification, from any state whatsoever, resets
the counter to 0, raises the Completion Signal exactly once and moves
the phase to `Connected`; and in the concrete scenario, 3 disconnect
notifications then one got-IP notification from the initial state end
with phase `Connected`, counter 0, and a single signal raise that
happened only after the acquisition. -/
theorem C5_got_ip_resets_and_signals (s : ApiState) :
    ((wifi_api_event_handler s WifiEvent.gotIp).s_retry_num = 0 ∧
     (wifi_api_event_handler s WifiEvent.gotIp).semGiven = s.semGiven + 1 ∧
     (wifi_api_event_handler s WifiEvent.gotIp).phase = Phase.connected) ∧
    (runEvents initState [WifiEvent.staDisconnected, WifiEvent.staDisconnected,
        WifiEvent.staDisconnected]).semGiven = 0 ∧
    (runEvents initState [WifiEvent.staDisconnected, WifiEvent.staDisconnected,
        WifiEvent.staDisconnected, WifiEvent.gotIp]).phase = Phase.connected ∧
    (runEvents initState [WifiEvent.staDisconnected, WifiEvent.staDisconnected,
        WifiEvent.staDisconnected, WifiEvent.gotIp]).s_retry_num = 0 ∧
    (runEvents initState [WifiEvent.staDisconnected, WifiEvent.staDisconnected,
        WifiEvent.staDisconnected, WifiEvent.gotIp]).semGiven = 1 :=
  ⟨⟨rfl, rfl, rfl⟩, by decide, by decide, by decide, by decide⟩

/-- Claim C6, failing input: with every collaborator call succeeding,
a first `wifi_api_disconnect` after a configure deletes the semaphore
but leaves the `s_ip_semaphore` handle non-NULL, so a second
`wifi_api_disconnect` calls `vSemaphoreDelete` on the dead handle - a
double free; and a `wifi_api_disconnect` with nothing registered still
issues both unregister calls, so the unregister step is not an
idempotent no-op. -/
theorem C6_double_disconnect_unsafe :
    (wifi_api_disconnect okCollab configuredState).state.semAlive = false ∧
    (wifi_api_disconnect okCollab configuredState).state.s_ip_semaphore = true ∧
    (wifi_api_disconnect okCollab configuredState).state.doubleFree = false ∧
    (wifi_api_disconnect okCollab
        (wifi_api_disconnect okCollab configuredState).state).state.doubleFree
      = true ∧
    (wifi_api_disconnect okCollab initState).state.unregisterCmds = 2 := by
  decide

/-- Claim C7, counterexample: with `esp_wifi_set_config` failing inside
`wifi_api_alter_sta`, the function still returns `ESP_OK` - it does not
propagate the collaborator error. -/
theorem C7_counterexample :
    (wifi_api_alter_sta failSetConfigCollab initState
        { ssid := [], password := [] } [] []).ret = EspErr.ok ∧
    failSetConfigCollab.setConfigErr ≠ EspErr.ok := by
  decide

/-- Claim C7, amended: `wifi_api_alter_sta` discards every collaborator
result and returns `ESP_OK` unconditionally, while
`wifi_api_disconnect` - when its `ESP_ERROR_CHECK`-wrapped unregister
calls succeed - returns exactly the result of the final
`esp_wifi_disconnect` collaborator call, without recovery. -/
theorem C7_error_propagation (c : Collab) (s : ApiState) (cfg : StaConfig)
    (newSsid newPassword : List Nat)
    (h1 : c.unregisterAnyErr = EspErr.ok)
    (h2 : c.unregisterGotIpErr = EspErr.ok) :
    (wifi_api_alter_sta c s cfg newSsid newPassword).ret = EspErr.ok ∧
    (wifi_api_disconnect c s).ret = some c.disconnectErr := by
  refine ⟨rfl, ?_⟩
  unfold wifi_api_disconnect
  rw [h1, h2]
  split
  · simp_all
  · dsimp only
    split <;> rfl

/-- Witness for C7 with a collaborator whose disconnect command fails:
the failure is passed through as the return value. -/
theorem C7_error_propagation_witness :
    discFailCollab.unregisterAnyErr = EspErr.ok ∧
    discFailCollab.unregisterGotIpErr = EspErr.ok ∧
    ((wifi_api_alter_sta discFailCollab initState
        { ssid := [], password := [] } [] []).ret = EspErr.ok ∧
     (wifi_api_disconnect discFailCollab initState).ret
       = some discFailCollab.disconnectErr) :=
  ⟨by decide, by decide,
   C7_error_propagation discFailCollab initState
     { ssid := [], password := [] } [] [] (by decide) (by decide)⟩

/-- Claim C8: for every input, `wifi_api_alter_sta` leaves the whole
supervisor state - in particular `s_retry_num` - unchanged, its effect
trace is exactly read-config, set-config, disconnect, connect (so it
never blocks on the Completion Signal: no semaphore take appears), and
the configuration it applies is the old one with the SSID and password
fields overwritten by the new credentials (truncated by the
`sizeof - 1` strncpy bounds). -/
theorem C8_alter_frame (c : Collab) (s : ApiState) (cfg : StaConfig)
    (newSsid newPassword : List Nat) :
    (wifi_api_alter_sta c s cfg newSsid newPassword).state = s ∧
    (wifi_api_alter_sta c s cfg newSsid newPassword).state.s_retry_num
      = s.s_retry_num ∧
    (wifi_api_alter_sta c s cfg newSsid newPassword).effects
      = [Effect.getConfig, Effect.setConfig,
         Effect.disconnectCmd, Effect.connectCmd] ∧
    Effect.semTake ∉ (wifi_api_alter_sta c s cfg newSsid newPassword).effects ∧
    (wifi_api_alter_sta c s cfg newSsid newPassword).config
      = { cfg with ssid := newSsid.take 31,
                   password := newPassword.take 63 } := by
  refine ⟨rfl, rfl, rfl, ?_, rfl⟩
  simp [wifi_api_alter_sta]

/-- Claim C9: the scan classification maps codes 0, 1, 2, 3, 4 to Open,
WEP, WPA-PSK, WPA2-PSK, WPA/WPA2-PSK respectively, maps a code to
Unknown exactly when it is outside those five, and a scan retrieves at
most 10 records whatever the collaborator found. -/
theorem C9_scan_classification :
    classify_authmode 0 = AuthModeLabel.authOpen ∧
    classify_authmode 1 = AuthModeLabel.authWep ∧
    classify_authmode 2 = AuthModeLabel.authWpaPsk ∧
    classify_authmode 3 = AuthModeLabel.authWpa2Psk ∧
    classify_authmode 4 = AuthModeLabel.authWpaWpa2Psk ∧
    classify_authmode 99 = AuthModeLabel.authUnknown ∧
    (∀ m : Nat, classify_authmode m = AuthModeLabel.authUnknown ↔ 5 ≤ m) ∧
    (∀ found : List ApRecord, (wifi_api_scan found).length ≤ 10) := by
  refine ⟨by decide, by decide, by decide, by decide, by decide, by decide,
          ?_, ?_⟩
  · intro m
    unfold classify_authmode WIFI_AUTH_OPEN WIFI_AUTH_WEP WIFI_AUTH_WPA_PSK
      WIFI_AUTH_WPA2_PSK WIFI_AUTH_WPA_WPA2_PSK
    split_ifs with h1 h2 h3 h4 h5 <;> simp_all <;> omega
  · intro found
    simp only [wifi_api_scan, List.length_map, List.length_take]
    omega

/-- Claim C10: starting from the initial counter value 0, after any
sequence of handler invocations the retry counter satisfies
`s_retry_num ≤ MAX_RETRY`; consequently the `s_retry_num > MAX_RETRY`
failure branch that `wifi_api_configure` checks after waking is
unreachable - the post-wake result is `ESP_OK` on every such state. -/
theorem C10_retry_counter_invariant (events : List WifiEvent) :
    (runEvents initState events).s_retry_num ≤ MAX_RETRY ∧
    wifi_api_configure_post_wake (runEvents initState events) = EspErr.ok := by
  have h := runEvents_retry_le events initState (by decide)
  refine ⟨h, ?_⟩
  unfold wifi_api_configure_post_wake
  simp [Nat.not_lt.mpr h]

end WifiApi
